import Mathlib

/-!
Verification of the Presentera slide editor's two core subsystems against
their natural-language specification.

Part A embeds `frontend/src/utils/generateThumbnail.js` (the Scene
Compositor and the Batch Thumbnail Generator).  Part B embeds the Edit
Session Controller: the `useLiveUpdates` hook, `handleSaveData` in
`RightToolbar/sections/ChartOptions.js`, and the display-cache logic of
`ChartDataModal/components/TableRow.js` and
`RightToolbar/sections/components/PieChartDataPoints.js`.

Asynchronous resource resolution is embedded by an oracle (`Resources`)
that fixes, per resource reference, whether its load succeeds; the source
awaits each resource sequentially inside a single `for` loop, so completion
order has no representation beyond the element array order itself.
-/

namespace Thumb

/-- A gradient background spec as read by `generateSlideThumbnail`
(`slide.backgroundGradient`): a `type` that may be absent (defaulting to
linear) and a colour list that may be absent (defaulting to `['#ffffff']`). -/
structure Gradient where
  gtype : Option String
  colors : Option (List String)
deriving DecidableEq, Repr

/-- The element variants dispatched on `element.type` in the compositor's
per-element loop.  Each constructor carries the datum the loop's control
flow depends on: the image source for `image`, an opaque chart identifier
for `chart` (standing for the chart spec passed to `renderChartToImage`),
and the grid dimensions for `table`. -/
inductive Element
  | text (content : String)
  | shape (shapeType : String)
  | image (src : String)
  | chart (chartId : Nat)
  | table (rows cols : Nat)
deriving DecidableEq, Repr

/-- Outcome oracle for the asynchronous resource loads performed during one
render: whether a given image source fires `onload` (true) or `onerror`
(false); whether `renderChartToImage` resolves for a given chart; and
whether the data-URL image produced for a chart loads. -/
structure Resources where
  imageLoads : String → Bool
  chartRenders : Nat → Bool
  chartImageLoads : Nat → Bool

/-- A slide as read by the compositor: the three optional background fields
checked in priority order, and the ordered element list. -/
structure Slide where
  id : Nat
  backgroundImage : Option String
  backgroundGradient : Option Gradient
  backgroundColor : Option String
  elements : List Element
deriving DecidableEq, Repr

/-- The background node added to the Konva layer before elements are
rendered: one of the four mutually exclusive branches of the background
cascade in `generateSlideThumbnail`. -/
inductive BgNode
  | image (src : String)
  | gradient (g : Gradient)
  | color (c : String)
  | white
deriving DecidableEq, Repr

/-- The background cascade of `generateSlideThumbnail` (lines 32-103):
a background image is awaited first and its `onerror` rejects the
surrounding promise (the rejection is not caught before the outer
`catch`); otherwise gradient, then solid colour, then the default white
fill are painted unconditionally. -/
def paintBackground (res : Resources) (s : Slide) : Except String BgNode :=
  match s.backgroundImage with
  | some src =>
      if res.imageLoads src then Except.ok (BgNode.image src)
      else Except.error "background image failed to load"
  | none =>
      match s.backgroundGradient with
      | some g => Except.ok (BgNode.gradient g)
      | none =>
          match s.backgroundColor with
          | some c => Except.ok (BgNode.color c)
          | none => Except.ok BgNode.white

/-- One element's contribution to the layer stack: either the element's own
content drawn at its array position, or the neutral placeholder rectangle
drawn in place of a chart whose rasterization or image decode failed. -/
inductive Layer
  | content (idx : Nat) (e : Element)
  | chartPlaceholder (idx : Nat)
deriving DecidableEq, Repr

/-- Whether a layer carries the element's own content (as opposed to the
substituted chart placeholder). -/
def Layer.isContent : Layer → Bool
  | .content _ _ => true
  | .chartPlaceholder _ => false

/-- The array position a layer was produced for. -/
def Layer.idx : Layer → Nat
  | .content i _ => i
  | .chartPlaceholder i => i

/-- One iteration of the compositor's element loop (lines 107-277) for the
element at array position `i`.  Text, shape and table elements always add
their nodes.  An image element whose load fails calls `imgResolve()` in
`onerror` without adding a node, so it contributes nothing.  A chart whose
`renderChartToImage` rejects, or whose produced data URL fails to load, is
caught by the inner `try`/`catch` which adds the placeholder rectangle. -/
def renderElement (res : Resources) (i : Nat) : Element → Option Layer
  | .text c => some (Layer.content i (Element.text c))
  | .shape st => some (Layer.content i (Element.shape st))
  | .image src =>
      if res.imageLoads src then some (Layer.content i (Element.image src))
      else none
  | .chart cid =>
      if res.chartRenders cid && res.chartImageLoads cid then
        some (Layer.content i (Element.chart cid))
      else some (Layer.chartPlaceholder i)
  | .table r c => some (Layer.content i (Element.table r c))

/-- The compositor's element loop starting at array position `i`: elements
are resolved strictly in array order (the loop `await`s each element before
moving to the next), so each contribution lands at its fixed position. -/
def renderFrom (res : Resources) (i : Nat) : List Element → List Layer
  | [] => []
  | e :: rest => ((renderElement res i e).toList) ++ renderFrom res (i + 1) rest

/-- Whether an element's asynchronous resource fails to resolve under the
oracle: an image whose source does not load, or a chart whose
rasterization or image decode fails.  Text, shape and table elements have
no resources. -/
def failsResources (res : Resources) : Element → Bool
  | .image src => !res.imageLoads src
  | .chart cid => !(res.chartRenders cid && res.chartImageLoads cid)
  | _ => false

/-- The observable outcome of one `generateSlideThumbnail` call: the
settled promise (composite on success, rejection reason on error) together
with whether `stage.destroy()` ran and whether the off-screen container was
removed from the document before the promise settled. -/
structure RenderRun where
  result : Except String (BgNode × List Layer)
  stageDestroyed : Bool
  containerRemoved : Bool
deriving Repr

/-- `generateSlideThumbnail` (lines 9-303).  The container and stage are
created unconditionally; the only `await` whose rejection escapes to the
outer `catch` is the background-image load (every element-level failure is
caught inside the loop).  On the success path the stage is destroyed and
the container removed before `resolve`; the outer `catch` rejects without
running either cleanup statement. -/
def generateSlideThumbnail (res : Resources) (s : Slide) : RenderRun :=
  match paintBackground res s with
  | Except.error e =>
      { result := Except.error e, stageDestroyed := false, containerRemoved := false }
  | Except.ok bg =>
      { result := Except.ok (bg, renderFrom res 0 s.elements),
        stageDestroyed := true, containerRemoved := true }

/-- `generateAllSlideThumbnails` (lines 310-327): iterate the deck in
order, render each slide inside a per-slide `try`/`catch`, push a
`(slideId, thumbnail)` pair on success and push nothing when the render
rejected. -/
def generateAllSlideThumbnails (res : Resources) (slides : List Slide) :
    List (Nat × (BgNode × List Layer)) :=
  slides.filterMap fun s =>
    match (generateSlideThumbnail res s).result with
    | Except.ok t => some (s.id, t)
    | Except.error _ => none

end Thumb

namespace EditSession

/-!
Part B: the Edit Session Controller.

The dataset handed to `padChartData` and then `JSON.stringify`-ed for the
fingerprint comparison is embedded directly by its serialized form (a
`String`): the controller only ever compares serializations for equality
and passes the value through to the commit callback, so the serialization
is the whole observable content of a dataset here.
-/

/-- A call to the `onSave` commit callback: the serialized dataset it
carries and the `isLive` flag of its options object. -/
structure Commit where
  data : String
  isLive : Bool
deriving DecidableEq, Repr

/-- The guard context of the live-update effect in `useLiveUpdates`
(lines 54-68): whether the modal is open, whether both `labels` and
`series` are non-empty, and the chart type (pie charts are excluded from
live updates). -/
structure SessionCtx where
  isOpen : Bool
  hasData : Bool
  chartType : String
deriving Repr

/-- The mutable refs of `useLiveUpdates` that drive commit decisions:
`lastSavedDataRef` (the fingerprint, `null` before initialization),
`updateTimeoutRef` embedded as the pending timer's absolute fire time
together with the serialized data the firing callback will read,
`initializedRef`, and `isInitialLoadRef`. -/
structure LiveState where
  lastSaved : Option String
  pending : Option (Nat × String)
  initialized : Bool
  isInitialLoad : Bool
deriving DecidableEq, Repr

/-- The state of `useLiveUpdates` right after the initialization effect
(lines 40-51) has stored the initial serialized data: fingerprint set,
no pending timer, initialized, still in the initial-load phase. -/
def initSession (initialData : String) : LiveState :=
  { lastSaved := some initialData, pending := none,
    initialized := true, isInitialLoad := true }

/-- If the pending debounce timer's fire time has been reached by time
`t`, the timeout callback of lines 100-111 runs: it advances
`lastSavedDataRef` to the scheduled serialized data and invokes the commit
callback with `isLive: true`.  Otherwise nothing happens. -/
def fireIfDue (s : LiveState) (t : Nat) : LiveState × List Commit :=
  match s.pending with
  | some (ft, d) =>
      if ft ≤ t then
        ({ s with lastSaved := some d, pending := none }, [{ data := d, isLive := true }])
      else (s, [])
  | none => (s, [])

/-- One dataset change arriving at time `t` with serialized value `d`: any
timer already due has fired beforehand; the previous effect's cleanup
(lines 114-118) then clears the pending timer; the effect body re-runs and
either returns early (modal closed, missing data, pie chart, not
initialized, or serialization equal to the fingerprint — the initial-load
check of lines 71-83 and the unchanged check of lines 85-92 both reduce to
the fingerprint comparison) or arms a fresh 300ms timer carrying the
current serialized data. -/
def changeStep (ctx : SessionCtx) (s : LiveState) (t : Nat) (d : String) :
    LiveState × List Commit :=
  let fired := fireIfDue s t
  let s1 := { fired.1 with pending := none }
  if ctx.isOpen && ctx.hasData && !(ctx.chartType == "pie") && s1.initialized then
    if some d = s1.lastSaved then (s1, fired.2)
    else ({ s1 with isInitialLoad := false, pending := some (t + 300, d) }, fired.2)
  else (s1, fired.2)

/-- A burst of dataset changes processed in order, collecting every commit
emitted along the way. -/
def runChanges (ctx : SessionCtx) (s : LiveState) :
    List (Nat × String) → LiveState × List Commit
  | [] => (s, [])
  | (t, d) :: rest =>
      let st := changeStep ctx s t d
      let rec' := runChanges ctx st.1 rest
      (rec'.1, st.2 ++ rec'.2)

/-- Time discipline of a burst relative to a base time `b`: each change
happens strictly after the previous one and strictly less than 300ms after
it, so no debounce timer armed by one change can fire before the next
change arrives. -/
def chainFrom (b : Nat) : List (Nat × String) → Prop
  | [] => True
  | (t, _) :: rest => b < t ∧ t < b + 300 ∧ chainFrom t rest

/-- The observable effects of the debounce timeout callback (lines
100-111) composed with `handleSaveData`'s live branch (ChartOptions.js
lines 37-54), for a fire carrying serialized data `d` while the external
`pushSnapshot` collaborator either throws (`pushThrows = true`) or
returns normally.  The callback first advances `lastSavedDataRef` to `d`,
then calls `onSave`; inside `handleSaveData` the `pushSnapshot` call is
wrapped in `try`/`catch` whose handler only logs, after which
`hasLiveSnapshotRef` is set and `updateSlideElement` is invoked
unconditionally. -/
structure LiveCommitEffects where
  errorLogged : Bool
  pushSnapshotCalled : Bool
  elementUpdated : Bool
deriving DecidableEq, Repr

/-- The debounce timeout callback composed with `handleSaveData`'s live
branch; see `LiveCommitEffects`. -/
def timeoutFire (s : LiveState) (d : String) (pushThrows : Bool) :
    LiveState × LiveCommitEffects :=
  ({ s with lastSaved := some d, pending := none },
   { errorLogged := pushThrows, pushSnapshotCalled := true, elementUpdated := true })

/-- The two event kinds reaching `handleSaveData` within one burst: a
debounced live commit (`options.isLive` true) or an explicit save. -/
inductive EditEvent
  | live
  | save
deriving DecidableEq, Repr

/-- The externally visible calls `handleSaveData` makes, in order: a
`pushSnapshot` call, or an `updateSlideElement` call with the optional
`__internal` marker it passes. -/
inductive SaveAction
  | pushSnap
  | update (internal : Option String)
deriving DecidableEq, Repr

/-- Modelled from the spec: `updateSlideElement` is not under `src/`; per
§4.3/§6 and the comments in `handleSaveData` ("Use __internal to prevent
updateSlideElement from creating another snapshot", "let updateSlideElement
save it normally"), an update carrying an `__internal` marker requests no
snapshot of its own, and an unmarked update requests exactly one. -/
def updateSlideElementSnaps : Option String → Nat
  | some _ => 0
  | none => 1

/-- `handleSaveData` (ChartOptions.js lines 32-68) for one event, given the
current value of `hasLiveSnapshotRef`: the live branch always calls
`pushSnapshot` and then updates with the `chart-live` marker, setting the
flag; the save branch updates with the `chart-save` marker when the flag is
set (suppressing any snapshot) and updates unmarked otherwise, clearing the
flag either way. -/
def handleSaveData (flag : Bool) : EditEvent → Bool × List SaveAction
  | .live => (true, [SaveAction.pushSnap, SaveAction.update (some "chart-live")])
  | .save =>
      (false,
       if flag then [SaveAction.update (some "chart-save")]
       else [SaveAction.update none])

/-- How many undo/redo snapshots one `handleSaveData` action requests:
a direct `pushSnapshot` call is one, an `updateSlideElement` call
contributes per `updateSlideElementSnaps`. -/
def actionSnaps : SaveAction → Nat
  | .pushSnap => 1
  | .update i => updateSlideElementSnaps i

/-- Total number of snapshots requested over a burst of events, threading
`hasLiveSnapshotRef` (reset to `false` at each burst boundary by the
effect on ChartOptions.js lines 28-30). -/
def burstSnapshots (flag : Bool) : List EditEvent → Nat
  | [] => 0
  | ev :: rest =>
      let step := handleSaveData flag ev
      (step.2.map actionSnaps).sum + burstSnapshots step.1 rest

/-!
Display-cache logic shared by `TableRow.js` and `PieChartDataPoints.js`.
JS numbers stored in the dataset are embedded as `Option Int` (`none`
standing for `undefined`/`null`); `Number(value)` on the text of a numeric
input is embedded as integer parsing, which is what the clamping logic
observes (emptiness, unparsability, sign).  The display cache
`displayValues` is a partial map from field index to display string
(`none` = key absent). -/

/-- How both components derive a display string from a committed value
(`value === 0 || value === undefined || value === null ? '' :
value.toString()`). -/
def displayOf : Option Int → String
  | none => ""
  | some v => if v = 0 then "" else toString v

/-- The external-update reconciliation effect (PieChartDataPoints.js lines
44-67, TableRow.js lines 46-69) applied to the display cache: for every
index of the new committed values that is not in the focused set, the
display entry is refreshed from the new value; every other entry (focused,
or beyond the new values) keeps its previous display string. -/
def reconcileDisplay (focused : List Nat) (values : List (Option Int))
    (prev : Nat → Option String) : Nat → Option String :=
  fun i =>
    if i < values.length ∧ i ∉ focused then some (displayOf (values.getD i none))
    else prev i

/-- The full external-update effect including its change guard: the new
committed values are compared (by serialization, embedded as list
equality) against `prevValuesRef`; only a genuine change refreshes the
cache and advances `prevValuesRef`. -/
def externalUpdate (focused : List Nat) (prevValues values : List (Option Int))
    (prev : Nat → Option String) : (Nat → Option String) × List (Option Int) :=
  if values = prevValues then (prev, prevValues)
  else (reconcileDisplay focused values prev, values)

/-- Digit-string to number: `none` when the characters are empty or not
all decimal digits. -/
def parseNatList (l : List Char) : Option Nat :=
  if l = [] then none
  else if l.all (fun c => c.isDigit) then
    some (l.foldl (fun acc c => 10 * acc + (c.toNat - 48)) 0)
  else none

/-- JS `Number(value)` on the text of a numeric input, embedded over the
integer inputs these fields carry: an optional leading minus sign followed
by decimal digits parses to its value, anything else is `NaN` (`none`). -/
def parseNumber (s : String) : Option Int :=
  match s.data with
  | '-' :: rest => (parseNatList rest).map (fun n => -(n : Int))
  | l => (parseNatList l).map (fun n => (n : Int))

/-- `handleValueChange` of PieChartDataPoints.js (lines 69-84): the display
entry for `index` is set to the raw input immediately; when the input is
non-empty, `Number(value)` is taken (`NaN` treated as 0) and clamped to
`Math.max(0, ·)`, and the committed values array is updated at `index`;
an empty input commits nothing. -/
def pieHandleValueChange (values : List Int) (display : Nat → Option String)
    (index : Nat) (v : String) : (Nat → Option String) × List Int :=
  let display1 := fun i => if i = index then some v else display i
  if v = "" then (display1, values)
  else
    let finalValue := max 0 ((parseNumber v).getD 0)
    (display1, values.set index finalValue)

/-- `handleValueChange` of TableRow.js (lines 71-78): the display entry for
the field is set to the raw input immediately, and the raw string is
forwarded to the parent's `onValueChange` exactly when it is non-empty. -/
def tableRowHandleValueChange (display : Nat → Option String) (key : Nat)
    (v : String) : (Nat → Option String) × Option String :=
  (fun i => if i = key then some v else display i,
   if v = "" then none else some v)

/-- The `min` attribute TableRow.js puts on its numeric inputs (line 124):
absent for bar charts (whose value domain explicitly allows negative
numbers) and `"0"` for every other chart type. -/
def tableRowValueMin (chartType : String) : Option String :=
  if chartType = "bar" then none else some "0"

end EditSession

namespace Thumb

/-- The elements of a list that do not fail resource resolution, paired
with their original array positions starting at `i`.  This is the
reference order against which the compositor's output is compared. -/
def keptFrom (res : Resources) (i : Nat) : List Element → List (Nat × Element)
  | [] => []
  | e :: rest =>
      if failsResources res e then keptFrom res (i + 1) rest
      else (i, e) :: keptFrom res (i + 1) rest

end Thumb

namespace EditSession

/-- The `handleSaveData` event induced by each commit the controller
emits: live commits carry `isLive = true`. -/
def eventsOf (cs : List Commit) : List EditEvent :=
  cs.map fun c => if c.isLive then EditEvent.live else EditEvent.save

end EditSession

/-! Concrete fixtures used by counterexamples and witnesses. -/

/-- Oracle under which the source `"bad.png"` fails to load and chart 7
fails to rasterize; everything else succeeds. -/
def resBad : Thumb.Resources :=
  { imageLoads := fun src => src != "bad.png",
    chartRenders := fun c => c != 7,
    chartImageLoads := fun _ => true }

/-- A slide whose background image reference fails under `resBad`. -/
def slideBadBg : Thumb.Slide :=
  { id := 3, backgroundImage := some "bad.png", backgroundGradient := none,
    backgroundColor := none, elements := [] }

/-- A slide with a solid background and four elements of which the image
`"bad.png"` and chart 7 fail under `resBad`. -/
def slideMixed : Thumb.Slide :=
  { id := 1, backgroundImage := none, backgroundGradient := none,
    backgroundColor := some "#ffffff",
    elements := [Thumb.Element.text "hello", Thumb.Element.image "bad.png",
                 Thumb.Element.chart 7, Thumb.Element.image "ok.png"] }

/-- A plain slide that renders successfully under `resBad`. -/
def slideOk (n : Nat) : Thumb.Slide :=
  { id := n, backgroundImage := none, backgroundGradient := none,
    backgroundColor := none, elements := [Thumb.Element.text "s"] }

/-- A five-slide deck whose third slide fails to render under `resBad`. -/
def deck5 : List Thumb.Slide :=
  [slideOk 1, slideOk 2, slideBadBg, slideOk 4, slideOk 5]

/-- An open bar-chart editing session with data present. -/
def ctxBar : EditSession.SessionCtx :=
  { isOpen := true, hasData := true, chartType := "bar" }

/-- Three sub-300ms keystrokes: "1" at 1000ms, "12" at 1100ms, "123" at
1200ms. -/
def burst3 : List (Nat × String) := [(1000, "1"), (1100, "12"), (1200, "123")]

/-! Part A theorems: the Scene Compositor and the Batch Thumbnail
Generator. -/

lemma renderElement_idx (res : Thumb.Resources) (i : Nat) (e : Thumb.Element)
    (l : Thumb.Layer) (h : Thumb.renderElement res i e = some l) :
    l.idx = i := by
  cases e <;> simp only [Thumb.renderElement] at h <;>
    first
      | (cases h; rfl)
      | (split at h <;> cases h <;> rfl)

lemma renderFrom_idx_ge (res : Thumb.Resources) :
    ∀ (es : List Thumb.Element) (i : Nat) (l : Thumb.Layer),
      l ∈ Thumb.renderFrom res i es → i ≤ l.idx := by
  intro es
  induction es with
  | nil => intro i l hl; simp [Thumb.renderFrom] at hl
  | cons e rest ih =>
      intro i l hl
      simp only [Thumb.renderFrom, List.mem_append] at hl
      rcases hl with hl | hl
      · rcases Option.mem_toList.mp hl with h
        have := renderElement_idx res i e l h
        omega
      · have := ih (i + 1) l hl
        omega

lemma renderFrom_pairwise (res : Thumb.Resources) :
    ∀ (es : List Thumb.Element) (i : Nat),
      List.Pairwise (fun a b => Thumb.Layer.idx a < Thumb.Layer.idx b)
        (Thumb.renderFrom res i es) := by
  intro es
  induction es with
  | nil => intro i; simp [Thumb.renderFrom]
  | cons e rest ih =>
      intro i
      simp only [Thumb.renderFrom]
      rw [List.pairwise_append]
      refine ⟨?_, ih (i + 1), ?_⟩
      · cases h : Thumb.renderElement res i e <;> simp
      · intro a ha b hb
        have hai : a.idx = i := by
          rcases Option.mem_toList.mp ha with h
          exact renderElement_idx res i e a h
        have hbi := renderFrom_idx_ge res rest (i + 1) b hb
        omega

lemma renderFrom_content_eq (res : Thumb.Resources) :
    ∀ (es : List Thumb.Element) (i : Nat),
      (Thumb.renderFrom res i es).filter Thumb.Layer.isContent
        = (Thumb.keptFrom res i es).map (fun p => Thumb.Layer.content p.1 p.2) := by
  intro es
  induction es with
  | nil => intro i; rfl
  | cons e rest ih =>
      intro i
      cases e with
      | text c =>
          simp [Thumb.renderFrom, Thumb.renderElement, Thumb.keptFrom,
                Thumb.failsResources, Thumb.Layer.isContent, ih]
      | shape st =>
          simp [Thumb.renderFrom, Thumb.renderElement, Thumb.keptFrom,
                Thumb.failsResources, Thumb.Layer.isContent, ih]
      | image src =>
          cases h : res.imageLoads src <;>
            simp [Thumb.renderFrom, Thumb.renderElement, Thumb.keptFrom,
                  Thumb.failsResources, Thumb.Layer.isContent, h, ih]
      | chart cid =>
          cases h : res.chartRenders cid && res.chartImageLoads cid <;>
            simp [Thumb.renderFrom, Thumb.renderElement, Thumb.keptFrom,
                  Thumb.failsResources, Thumb.Layer.isContent, h, ih]
      | table r c =>
          simp [Thumb.renderFrom, Thumb.renderElement, Thumb.keptFrom,
                Thumb.failsResources, Thumb.Layer.isContent, ih]

lemma keptFrom_length (res : Thumb.Resources) :
    ∀ (es : List Thumb.Element) (i : Nat),
      (Thumb.keptFrom res i es).length + es.countP (Thumb.failsResources res)
        = es.length := by
  intro es
  induction es with
  | nil => intro i; rfl
  | cons e rest ih =>
      intro i
      have h1 := ih (i + 1)
      cases h : Thumb.failsResources res e <;>
        simp [Thumb.keptFrom, h, List.countP_cons] <;> omega

/-- C4: for every slide whose background resolves, one compositor call
produces a composite whose element layers are exactly the N−k elements
that resolved their resources (k counting failed image loads and failed
chart rasterizations; a failed chart additionally leaves a neutral
placeholder in its slot), and every contribution — content and placeholder
alike — sits at its element's original array position, in strictly
ascending array order.  Completion order has no influence: the loop awaits
each element before the next, which the embedding reflects by indexing
contributions with their array position. -/
theorem composite_layers_count_and_order (res : Thumb.Resources)
    (s : Thumb.Slide) (bg : Thumb.BgNode)
    (hbg : Thumb.paintBackground res s = Except.ok bg) :
    (Thumb.generateSlideThumbnail res s).result
        = Except.ok (bg, Thumb.renderFrom res 0 s.elements) ∧
    ((Thumb.renderFrom res 0 s.elements).filter Thumb.Layer.isContent).length
        = s.elements.length - s.elements.countP (Thumb.failsResources res) ∧
    (Thumb.renderFrom res 0 s.elements).filter Thumb.Layer.isContent
        = (Thumb.keptFrom res 0 s.elements).map
            (fun p => Thumb.Layer.content p.1 p.2) ∧
    List.Pairwise (fun a b => Thumb.Layer.idx a < Thumb.Layer.idx b)
        (Thumb.renderFrom res 0 s.elements) := by
  refine ⟨?_, ?_, renderFrom_content_eq res s.elements 0,
          renderFrom_pairwise res s.elements 0⟩
  · simp [Thumb.generateSlideThumbnail, hbg]
  · have h1 := keptFrom_length res s.elements 0
    have h2 := renderFrom_content_eq res s.elements 0
    have h3 : ((Thumb.renderFrom res 0 s.elements).filter
        Thumb.Layer.isContent).length = (Thumb.keptFrom res 0 s.elements).length := by
      rw [h2, List.length_map]
    omega

/-- C4 witness: for the mixed fixture slide (text, failing image, failing
chart, loading image) the composite keeps 2 of the 4 elements as content
layers. -/
theorem composite_layers_count_and_order_witness :
    Thumb.paintBackground resBad slideMixed
        = Except.ok (Thumb.BgNode.color "#ffffff") ∧
    ((Thumb.renderFrom resBad 0 slideMixed.elements).filter
        Thumb.Layer.isContent).length = 4 - 2 :=
  ⟨rfl, by
    have h := composite_layers_count_and_order resBad slideMixed
      (Thumb.BgNode.color "#ffffff") rfl
    exact h.2.1.trans (by decide)⟩

/-- C5: the batch generator returns one `(slideId, thumbnail)` pair per
slide whose render succeeded — membership of a successful slide's pair
does not depend on any other slide of the deck — and no pair for a slide
whose render failed; the function is total (it never raises). -/
theorem batch_isolation (res : Thumb.Resources) (slides : List Thumb.Slide) :
    (Thumb.generateAllSlideThumbnails res slides).length
        = slides.countP (fun s => (Thumb.generateSlideThumbnail res s).result.isOk) ∧
    (∀ s ∈ slides, ∀ t, (Thumb.generateSlideThumbnail res s).result = Except.ok t →
        (s.id, t) ∈ Thumb.generateAllSlideThumbnails res slides) ∧
    (∀ p ∈ Thumb.generateAllSlideThumbnails res slides,
        ∃ s ∈ slides, (Thumb.generateSlideThumbnail res s).result = Except.ok p.2
          ∧ p.1 = s.id) := by
  refine ⟨?_, ?_, ?_⟩
  · induction slides with
    | nil => rfl
    | cons s rest ih =>
        simp only [Thumb.generateAllSlideThumbnails, List.filterMap_cons,
          List.countP_cons] at ih ⊢
        cases h : (Thumb.generateSlideThumbnail res s).result <;>
          simp [h, Except.isOk, Except.toBool, ih]
  · intro s hs t ht
    refine List.mem_filterMap.mpr ⟨s, hs, ?_⟩
    simp [ht]
  · intro p hp
    rcases List.mem_filterMap.mp hp with ⟨s, hs, hf⟩
    refine ⟨s, hs, ?_⟩
    cases h : (Thumb.generateSlideThumbnail res s).result with
    | ok t => rw [h] at hf; cases hf; exact ⟨rfl, rfl⟩
    | error e => rw [h] at hf; cases hf

/-- C5 witness: over the five-slide fixture deck whose third slide's
background image fails, the batch yields exactly 4 pairs, and slide 1's
pair is present. -/
theorem batch_isolation_witness :
    (Thumb.generateAllSlideThumbnails resBad deck5).length = 4 ∧
    (1, (Thumb.BgNode.white,
          [Thumb.Layer.content 0 (Thumb.Element.text "s")]))
        ∈ Thumb.generateAllSlideThumbnails resBad deck5 :=
  ⟨(batch_isolation resBad deck5).1.trans (by decide),
   (batch_isolation resBad deck5).2.1 (slideOk 1) (by decide)
     (Thumb.BgNode.white, [Thumb.Layer.content 0 (Thumb.Element.text "s")]) rfl⟩

/-- C10: a slide whose background image reference fails to load makes the
whole compositor call fail — the promise rejects and the batch generator
records no thumbnail for it — whereas a failing image element only loses
its own layer: a slide without a background image always renders, and a
failing image element contributes nothing to the layer stack. -/
theorem background_failure_vs_element_failure (res : Thumb.Resources)
    (s : Thumb.Slide) (src : String)
    (hbg : s.backgroundImage = some src)
    (hfail : res.imageLoads src = false) :
    (Thumb.generateSlideThumbnail res s).result.isOk = false ∧
    Thumb.generateAllSlideThumbnails res [s] = [] ∧
    (∀ s2 : Thumb.Slide, s2.backgroundImage = none →
        (Thumb.generateSlideThumbnail res s2).result.isOk = true) ∧
    (∀ (i : Nat) (src2 : String), res.imageLoads src2 = false →
        Thumb.renderElement res i (Thumb.Element.image src2) = none) := by
  refine ⟨?_, ?_, ?_, ?_⟩
  · simp [Thumb.generateSlideThumbnail, Thumb.paintBackground, hbg, hfail,
      Except.isOk, Except.toBool]
  · simp [Thumb.generateAllSlideThumbnails, Thumb.generateSlideThumbnail,
      Thumb.paintBackground, hbg, hfail]
  · intro s2 h2
    cases hg : s2.backgroundGradient <;> cases hc : s2.backgroundColor <;>
      simp [Thumb.generateSlideThumbnail, Thumb.paintBackground, h2, hg, hc,
        Except.isOk, Except.toBool]
  · intro i src2 h2
    simp [Thumb.renderElement, h2]

/-- C10 witness: under `resBad`, the bad-background fixture slide rejects
and yields no batch entry, while the mixed fixture slide (no background
image, one failing image element) renders. -/
theorem background_failure_vs_element_failure_witness :
    slideBadBg.backgroundImage = some "bad.png" ∧
    resBad.imageLoads "bad.png" = false ∧
    (Thumb.generateSlideThumbnail resBad slideBadBg).result.isOk = false ∧
    (Thumb.generateSlideThumbnail resBad slideMixed).result.isOk = true :=
  ⟨rfl, rfl,
   (background_failure_vs_element_failure resBad slideBadBg "bad.png" rfl rfl).1,
   (background_failure_vs_element_failure resBad slideBadBg "bad.png" rfl rfl).2.2.1
     slideMixed rfl⟩

/-- C3 counterexample: the claim asserts the temporary rendering surface
and its off-screen host container are released on every exit path of the
compositor, but on the early-error exit taken when a background image
fails to load, `generateSlideThumbnail` rejects from the outer `catch`
without ever reaching `stage.destroy()` or
`document.body.removeChild(container)`: here is a call that exits with an
error while neither release ran. -/
theorem early_error_leaks_surface :
    (Thumb.generateSlideThumbnail resBad slideBadBg).result.isOk = false ∧
    (Thumb.generateSlideThumbnail resBad slideBadBg).stageDestroyed = false ∧
    (Thumb.generateSlideThumbnail resBad slideBadBg).containerRemoved = false :=
  ⟨rfl, rfl, rfl⟩

/-- C3 amended: the rendering surface and the off-screen container are
released exactly on the successful exits of the compositor — which include
every render where individual elements or their resources fail, since
those failures are caught inside the element loop — but an error that
terminates the render early (such as a background image load failure)
rejects the promise without releasing either. -/
theorem cleanup_on_success_paths (res : Thumb.Resources) (s : Thumb.Slide) :
    (Thumb.generateSlideThumbnail res s).stageDestroyed
        = (Thumb.generateSlideThumbnail res s).result.isOk ∧
    (Thumb.generateSlideThumbnail res s).containerRemoved
        = (Thumb.generateSlideThumbnail res s).result.isOk := by
  cases h : Thumb.paintBackground res s <;>
    simp [Thumb.generateSlideThumbnail, h, Except.isOk, Except.toBool]

/-! Part B theorems: the Edit Session Controller. -/

lemma burstSnapshots_replicate_live :
    ∀ (n : Nat) (flag : Bool),
      EditSession.burstSnapshots flag
        (List.replicate n EditSession.EditEvent.live) = n := by
  intro n
  induction n with
  | zero => intro flag; rfl
  | succ m ih =>
      intro flag
      simp only [List.replicate_succ, EditSession.burstSnapshots,
        EditSession.handleSaveData, EditSession.actionSnaps,
        EditSession.updateSlideElementSnaps, List.map_cons, List.map_nil,
        List.sum_cons, List.sum_nil, ih]
      omega

lemma burstSnapshots_lives_then_save (n : Nat) :
    EditSession.burstSnapshots true
      (List.replicate n EditSession.EditEvent.live
        ++ [EditSession.EditEvent.save]) = n := by
  induction n with
  | zero => rfl
  | succ m ih =>
      have ih2 : EditSession.burstSnapshots true
          ((List.replicate m EditSession.EditEvent.live).append
            [EditSession.EditEvent.save]) = m := ih
      simp only [List.replicate_succ, List.cons_append,
        EditSession.burstSnapshots, EditSession.handleSaveData,
        EditSession.actionSnaps, EditSession.updateSlideElementSnaps,
        List.map_cons, List.map_nil, List.sum_cons, List.sum_nil, ih2]
      omega

/-- C1 counterexample: the claim demands exactly one `pushSnapshot` call
for a contiguous burst spanning one or more debounced live commits, but
`handleSaveData`'s live branch calls `pushSnapshot` unconditionally on
every live commit (its own comment reads "Each debounced update creates a
separate undo point"): a burst of two debounced live commits yields two
snapshot requests, not one. -/
theorem two_live_commits_two_snapshots :
    EditSession.burstSnapshots false
        [EditSession.EditEvent.live, EditSession.EditEvent.live] = 2 ∧
    (2 : Nat) ≠ 1 :=
  ⟨rfl, by decide⟩

/-- C1 amended: each debounced live commit requests exactly one snapshot,
taken immediately before its document update, so a burst of n ≥ 1 live
commits requests n snapshots; an explicit save after live edits in the
same burst adds none (the `hasLiveSnapshotRef` flag routes it through the
`chart-save` internal marker), and an explicit save with no prior live
edits in the burst requests exactly one of its own (via the unmarked
`updateSlideElement` call); in total a burst of n live commits followed by
an explicit save requests `max n 1` snapshots. -/
theorem burst_snapshot_count (n : Nat) :
    EditSession.burstSnapshots false
        (List.replicate n EditSession.EditEvent.live
          ++ [EditSession.EditEvent.save]) = max n 1 ∧
    EditSession.burstSnapshots false
        (List.replicate n EditSession.EditEvent.live) = n ∧
    EditSession.handleSaveData false EditSession.EditEvent.live
        = (true, [EditSession.SaveAction.pushSnap,
                  EditSession.SaveAction.update (some "chart-live")]) := by
  refine ⟨?_, burstSnapshots_replicate_live n false, rfl⟩
  cases n with
  | zero => rfl
  | succ m =>
      have h2 : EditSession.burstSnapshots true
          ((List.replicate m EditSession.EditEvent.live).append
            [EditSession.EditEvent.save]) = m :=
        burstSnapshots_lives_then_save m
      simp only [List.replicate_succ, List.cons_append,
        EditSession.burstSnapshots, EditSession.handleSaveData,
        EditSession.actionSnaps, EditSession.updateSlideElementSnaps,
        List.map_cons, List.map_nil, List.sum_cons, List.sum_nil, h2]
      omega

/-- C2 counterexample: the claim asserts that when the external
commit/snapshot collaborator throws, the last-committed fingerprint is not
advanced; but the timeout callback assigns `lastSavedDataRef.current =
finalDataString` before invoking `onSave`, so the fingerprint moves from
"A" to "B" even on a fire whose `pushSnapshot` throws. -/
theorem fingerprint_advances_on_push_failure :
    (EditSession.timeoutFire (EditSession.initSession "A") "B" true).2.errorLogged
        = true ∧
    (EditSession.timeoutFire (EditSession.initSession "A") "B" true).1.lastSaved
        = some "B" ∧
    some "B" ≠ (EditSession.initSession "A").lastSaved :=
  ⟨rfl, rfl, by decide⟩

/-- C2 amended: when the external `pushSnapshot` collaborator throws
during a live commit, the error is logged and the session continues (the
document update still runs and further changes are still processed), but
the fingerprint IS advanced — it is assigned before the commit callback
runs — so the next debounce-worthy change carrying the same serialized
dataset does not retry the commit: it is skipped as unchanged, and only a
further actual change commits again. -/
theorem live_commit_failure_behavior (s : EditSession.LiveState) (d : String)
    (ctx : EditSession.SessionCtx) (t : Nat) :
    (EditSession.timeoutFire s d true).2.errorLogged = true ∧
    (EditSession.timeoutFire s d true).2.elementUpdated = true ∧
    (EditSession.timeoutFire s d true).1.lastSaved = some d ∧
    (EditSession.changeStep ctx (EditSession.timeoutFire s d true).1 t d).2 = [] ∧
    (EditSession.changeStep ctx (EditSession.timeoutFire s d true).1 t d).1.pending
        = none := by
  refine ⟨rfl, rfl, rfl, ?_, ?_⟩ <;>
    · simp only [EditSession.changeStep, EditSession.timeoutFire,
        EditSession.fireIfDue]
      split <;> simp

/-- C2 witness: a concrete failing fire from fingerprint "A" to data "B"
followed by a change re-submitting "B". -/
theorem live_commit_failure_behavior_witness :
    (EditSession.changeStep ctxBar
        (EditSession.timeoutFire (EditSession.initSession "A") "B" true).1
        2000 "B").2 = [] :=
  (live_commit_failure_behavior (EditSession.initSession "A") "B"
    ctxBar 2000).2.2.2.1

/-- C9: re-submitting a dataset whose serialization equals the
last-committed fingerprint is a no-op: the controller state is unchanged,
no commit reaches the commit callback, and consequently no snapshot is
requested. -/
theorem unchanged_dataset_noop (ctx : EditSession.SessionCtx)
    (s : EditSession.LiveState) (t : Nat) (d : String) (flag : Bool)
    (h : some d = s.lastSaved) (hp : s.pending = none) :
    EditSession.changeStep ctx s t d = (s, []) ∧
    EditSession.burstSnapshots flag
        (EditSession.eventsOf (EditSession.changeStep ctx s t d).2) = 0 := by
  have hstep : EditSession.changeStep ctx s t d = (s, []) := by
    obtain ⟨ls, pd, ini, il⟩ := s
    have hp2 : pd = none := hp
    subst hp2
    have h2 : some d = ls := h
    subst h2
    simp [EditSession.changeStep, EditSession.fireIfDue]
  exact ⟨hstep, by rw [hstep]; rfl⟩

/-- C9 witness: re-submitting the fingerprinted serialization "X" right
after initialization emits nothing. -/
theorem unchanged_dataset_noop_witness :
    some "X" = (EditSession.initSession "X").lastSaved ∧
    (EditSession.initSession "X").pending = none ∧
    EditSession.changeStep ctxBar (EditSession.initSession "X") 500 "X"
        = (EditSession.initSession "X", []) :=
  ⟨rfl, rfl,
   (unchanged_dataset_noop ctxBar (EditSession.initSession "X") 500 "X" false
     rfl rfl).1⟩

/-- C7: on an external update that actually changes the committed dataset,
the reconciliation effect refreshes the display cache entry of every field
that is not in the focused set from the new committed value, and leaves
the display cache entry of every currently focused field unchanged; the
previous-values ref advances to the new dataset. -/
theorem external_update_focus_preservation (focused : List Nat)
    (prevValues values : List (Option Int)) (prev : Nat → Option String)
    (hchange : values ≠ prevValues) :
    ((EditSession.externalUpdate focused prevValues values prev).2 = values) ∧
    (∀ i, i ∈ focused →
        (EditSession.externalUpdate focused prevValues values prev).1 i
          = prev i) ∧
    (∀ i, i < values.length → i ∉ focused →
        (EditSession.externalUpdate focused prevValues values prev).1 i
          = some (EditSession.displayOf (values.getD i none))) := by
  refine ⟨?_, ?_, ?_⟩
  · simp [EditSession.externalUpdate, hchange]
  · intro i hi
    simp only [EditSession.externalUpdate, if_neg hchange,
      EditSession.reconcileDisplay]
    exact if_neg fun hcon => hcon.2 hi
  · intro i hlen hni
    simp only [EditSession.externalUpdate, if_neg hchange,
      EditSession.reconcileDisplay]
    exact if_pos ⟨hlen, hni⟩

/-- The display cache of the C7 witness: field 1 holds the in-flight
display string "2". -/
def prevDisplay : Nat → Option String :=
  fun i => if i = 1 then some "2" else none

/-- C7 witness: field 1 is focused while the dataset changes from [1, 2]
to [3, 0]; the unfocused field 0 is refreshed to "3" and the focused field
1 keeps its display string. -/
theorem external_update_focus_preservation_witness :
    ([some (3 : Int), some 0] ≠ [some (1 : Int), some 2]) ∧
    (EditSession.externalUpdate [1] [some 1, some 2] [some 3, some 0]
        prevDisplay).1 1 = some "2" ∧
    (EditSession.externalUpdate [1] [some 1, some 2] [some 3, some 0]
        prevDisplay).1 0 = some "3" :=
  ⟨by decide,
   (external_update_focus_preservation [1] [some 1, some 2] [some 3, some 0]
      prevDisplay (by decide)).2.1 1 (by decide),
   ((external_update_focus_preservation [1] [some 1, some 2] [some 3, some 0]
      prevDisplay (by decide)).2.2 0 (by decide) (by decide)).trans rfl⟩

/-- C8: a keystroke carrying raw input `v` into a numeric field updates
the display string to `v` immediately and commits only when `v` is
non-empty: the pie-chart editor commits `max 0 (Number(v))` with `NaN`
treated as 0 — so non-numeric and negative input commit 0 and
non-negative numeric input commits its value — while the table-row editor
forwards the raw non-empty string to its parent and marks only bar-chart
fields (whose domain allows negative values) without a `min="0"`
constraint. -/
theorem numeric_input_display_and_clamp (values : List Int)
    (display : Nat → Option String) (index : Nat) (v : String)
    (hlen : index < values.length) :
    ((EditSession.pieHandleValueChange values display index v).1 index
        = some v) ∧
    (v = "" → (EditSession.pieHandleValueChange values display index v).2
        = values) ∧
    (v ≠ "" → (EditSession.pieHandleValueChange values display index v).2.getD
        index 0 = max 0 ((EditSession.parseNumber v).getD 0)) ∧
    (v ≠ "" → EditSession.parseNumber v = none →
        (EditSession.pieHandleValueChange values display index v).2.getD
          index 0 = 0) ∧
    (v ≠ "" → ∀ n : Int, EditSession.parseNumber v = some n → n < 0 →
        (EditSession.pieHandleValueChange values display index v).2.getD
          index 0 = 0) ∧
    (v ≠ "" → ∀ n : Int, EditSession.parseNumber v = some n → 0 ≤ n →
        (EditSession.pieHandleValueChange values display index v).2.getD
          index 0 = n) ∧
    ((EditSession.tableRowHandleValueChange display index v).1 index
        = some v) ∧
    ((EditSession.tableRowHandleValueChange display index v).2
        = if v = "" then none else some v) ∧
    (EditSession.tableRowValueMin "bar" = none) ∧
    (∀ ct : String, ct ≠ "bar" → EditSession.tableRowValueMin ct
        = some "0") := by
  have hset : ∀ (x : Int), v ≠ "" →
      (EditSession.pieHandleValueChange values display index v).2.getD index 0
        = max 0 ((EditSession.parseNumber v).getD 0) := by
    intro x hv
    simp [EditSession.pieHandleValueChange, hv, List.getD, hlen]
  refine ⟨?_, ?_, hset 0, ?_, ?_, ?_, ?_, ?_, ?_, ?_⟩
  · by_cases hv : v = "" <;> simp [EditSession.pieHandleValueChange, hv]
  · intro hv; simp [EditSession.pieHandleValueChange, hv]
  · intro hv hn; rw [hset 0 hv, hn]; rfl
  · intro hv n hn hneg
    rw [hset 0 hv, hn]
    simp only [Option.getD_some]
    omega
  · intro hv n hn hpos
    rw [hset 0 hv, hn]
    simp only [Option.getD_some]
    omega
  · simp [EditSession.tableRowHandleValueChange]
  · rfl
  · rfl
  · intro ct hct; simp [EditSession.tableRowValueMin, hct]

/-- C8 witness: in a two-field pie editor holding [5, 6], typing "-3" into
field 0 shows "-3" but commits 0; typing "7" commits 7; typing "" commits
nothing. -/
theorem numeric_input_display_and_clamp_witness :
    (0 : Nat) < ([5, 6] : List Int).length ∧
    (EditSession.pieHandleValueChange [5, 6] (fun _ => none) 0 "-3").1 0
        = some "-3" ∧
    (EditSession.pieHandleValueChange [5, 6] (fun _ => none) 0 "-3").2.getD 0 0
        = 0 ∧
    (EditSession.pieHandleValueChange [5, 6] (fun _ => none) 0 "7").2.getD 0 0
        = 7 ∧
    (EditSession.pieHandleValueChange [5, 6] (fun _ => none) 0 "").2
        = [5, 6] :=
  ⟨by decide,
   (numeric_input_display_and_clamp [5, 6] (fun _ => none) 0 "-3"
      (by decide)).1,
   (numeric_input_display_and_clamp [5, 6] (fun _ => none) 0 "-3"
      (by decide)).2.2.2.2.1 (by decide) (-3) (by decide) (by decide),
   (numeric_input_display_and_clamp [5, 6] (fun _ => none) 0 "7"
      (by decide)).2.2.2.2.2.1 (by decide) 7 (by decide) (by decide),
   (numeric_input_display_and_clamp [5, 6] (fun _ => none) 0 ""
      (by decide)).2.1 rfl⟩

lemma fireIfDue_none (s : EditSession.LiveState) (t : Nat)
    (hp : s.pending = none) : EditSession.fireIfDue s t = (s, []) := by
  simp [EditSession.fireIfDue, hp]

lemma fireIfDue_notdue (s : EditSession.LiveState) (t ft : Nat) (dd : String)
    (hp : s.pending = some (ft, dd)) (ht : t < ft) :
    EditSession.fireIfDue s t = (s, []) := by
  simp only [EditSession.fireIfDue, hp]
  rw [if_neg (by omega)]

lemma changeStep_eq (ctx : EditSession.SessionCtx)
    (hopen : ctx.isOpen = true) (hdata : ctx.hasData = true)
    (hpie : ctx.chartType ≠ "pie") (s : EditSession.LiveState)
    (hinit : s.initialized = true) (t : Nat) (d : String)
    (hnofire : EditSession.fireIfDue s t = (s, [])) :
    EditSession.changeStep ctx s t d =
      (if some d = s.lastSaved then ({ s with pending := none }, [])
       else ({ s with isInitialLoad := false,
                      pending := some (t + 300, d) }, [])) := by
  obtain ⟨ls, pd, ini, il⟩ := s
  have hini : ini = true := hinit
  subst hini
  simp only [EditSession.changeStep, hnofire]
  have hg : (ctx.chartType == "pie") = false := by
    simp [hpie]
  by_cases hc : some d = ls <;>
    simp [hopen, hdata, hg, hc]

lemma runChanges_aux (ctx : EditSession.SessionCtx)
    (hopen : ctx.isOpen = true) (hdata : ctx.hasData = true)
    (hpie : ctx.chartType ≠ "pie") (d0 : String) :
    ∀ (changes : List (Nat × String)) (s : EditSession.LiveState) (b : Nat),
      s.lastSaved = some d0 → s.initialized = true →
      (s.pending = none ∨ ∃ dd, s.pending = some (b + 300, dd)) →
      EditSession.chainFrom b changes →
      (EditSession.runChanges ctx s changes).2 = [] ∧
      (EditSession.runChanges ctx s changes).1.lastSaved = some d0 ∧
      (EditSession.runChanges ctx s changes).1.initialized = true ∧
      (changes = [] → (EditSession.runChanges ctx s changes).1 = s) ∧
      (∀ tl dl, changes.getLast? = some (tl, dl) →
        (EditSession.runChanges ctx s changes).1.pending
          = if dl = d0 then none else some (tl + 300, dl)) := by
  intro changes
  induction changes with
  | nil =>
      intro s b h1 h2 h3 h4
      exact ⟨rfl, h1, h2, fun _ => rfl, fun tl dl hl => by simp at hl⟩
  | cons c rest ih =>
      obtain ⟨t, d⟩ := c
      intro s b h1 h2 h3 hchain
      obtain ⟨hbt, htb, hrest⟩ := hchain
      have hnofire : EditSession.fireIfDue s t = (s, []) := by
        rcases h3 with hn | ⟨dd, hdd⟩
        · exact fireIfDue_none s t hn
        · exact fireIfDue_notdue s t (b + 300) dd hdd (by omega)
      have hstep := changeStep_eq ctx hopen hdata hpie s h2 t d hnofire
      by_cases hd : d = d0
      · -- the change re-submits the fingerprinted serialization: timer cleared,
        -- nothing scheduled
        have hstep2 : EditSession.changeStep ctx s t d
            = ({ s with pending := none }, []) := by
          rw [hstep, if_pos (by rw [h1, hd])]
        have hih := ih { s with pending := none } t (by simpa using h1)
          (by simpa using h2) (Or.inl rfl) hrest
        refine ⟨?_, ?_, ?_, ?_, ?_⟩
        · simp only [EditSession.runChanges, hstep2]
          simpa using hih.1
        · simp only [EditSession.runChanges, hstep2]
          simpa using hih.2.1
        · simp only [EditSession.runChanges, hstep2]
          simpa using hih.2.2.1
        · intro hc; cases hc
        · intro tl dl hl
          cases rest with
          | nil =>
              simp only [List.getLast?_singleton] at hl
              cases hl
              simp only [EditSession.runChanges, hstep2]
              simp [hd]
          | cons r rs =>
              rw [List.getLast?_cons_cons] at hl
              simp only [EditSession.runChanges, hstep2]
              simpa using hih.2.2.2.2 tl dl hl
      · -- a genuine change: a fresh 300ms timer is armed carrying `d`
        have hstep2 : EditSession.changeStep ctx s t d
            = ({ s with isInitialLoad := false,
                        pending := some (t + 300, d) }, []) := by
          rw [hstep, if_neg (by rw [h1]; simpa using hd)]
        have hih := ih { s with isInitialLoad := false,
                                pending := some (t + 300, d) } t
          (by simpa using h1) (by simpa using h2) (Or.inr ⟨d, rfl⟩) hrest
        refine ⟨?_, ?_, ?_, ?_, ?_⟩
        · simp only [EditSession.runChanges, hstep2]
          simpa using hih.1
        · simp only [EditSession.runChanges, hstep2]
          simpa using hih.2.1
        · simp only [EditSession.runChanges, hstep2]
          simpa using hih.2.2.1
        · intro hc; cases hc
        · intro tl dl hl
          cases rest with
          | nil =>
              simp only [List.getLast?_singleton] at hl
              cases hl
              simp only [EditSession.runChanges, hstep2]
              simp [hd]
          | cons r rs =>
              rw [List.getLast?_cons_cons] at hl
              simp only [EditSession.runChanges, hstep2]
              simpa using hih.2.2.2.2 tl dl hl

/-- C6: for a burst of dataset changes in which each change follows the
previous one by less than the 300ms quiet interval — starting from a
fresh initialized session whose fingerprint is `d0` — and whose final
change carries a serialization `dn` different from the fingerprint, no
commit fires during the burst, the timer left pending fires at exactly
300ms after the last change (and at no earlier time), and the single live
commit it emits carries `dn`, the dataset state as of the last change. -/
theorem debounce_single_commit (ctx : EditSession.SessionCtx) (d0 : String)
    (b : Nat) (changes : List (Nat × String)) (tn : Nat) (dn : String)
    (hopen : ctx.isOpen = true) (hdata : ctx.hasData = true)
    (hpie : ctx.chartType ≠ "pie")
    (hchain : EditSession.chainFrom b changes)
    (hlast : changes.getLast? = some (tn, dn))
    (hne : dn ≠ d0) :
    (EditSession.runChanges ctx (EditSession.initSession d0) changes).2 = [] ∧
    (EditSession.runChanges ctx (EditSession.initSession d0) changes).1.pending
        = some (tn + 300, dn) ∧
    (∀ t, t < tn + 300 →
      EditSession.fireIfDue
          (EditSession.runChanges ctx (EditSession.initSession d0) changes).1 t
        = ((EditSession.runChanges ctx (EditSession.initSession d0) changes).1,
           [])) ∧
    (EditSession.fireIfDue
        (EditSession.runChanges ctx (EditSession.initSession d0) changes).1
        (tn + 300)).2
      = [{ data := dn, isLive := true }] ∧
    (EditSession.fireIfDue
        (EditSession.runChanges ctx (EditSession.initSession d0) changes).1
        (tn + 300)).1.lastSaved
      = some dn := by
  have haux := runChanges_aux ctx hopen hdata hpie d0 changes
    (EditSession.initSession d0) b rfl rfl (Or.inl rfl) hchain
  have hpend := haux.2.2.2.2 tn dn hlast
  rw [if_neg hne] at hpend
  refine ⟨haux.1, hpend, ?_, ?_, ?_⟩
  · intro t ht
    exact fireIfDue_notdue _ t (tn + 300) dn hpend ht
  · simp [EditSession.fireIfDue, hpend]
  · simp [EditSession.fireIfDue, hpend]

/-- C6 witness: typing "1", "12", "123" at 1000ms, 1100ms, 1200ms into a
fresh bar-chart session fingerprinted "0" emits nothing during the burst
and exactly one live commit carrying "123" when the timer fires at
1500ms. -/
theorem debounce_single_commit_witness :
    ctxBar.isOpen = true ∧ ctxBar.chartType ≠ "pie" ∧
    EditSession.chainFrom 900 burst3 ∧
    burst3.getLast? = some (1200, "123") ∧
    (EditSession.runChanges ctxBar (EditSession.initSession "0") burst3).2
        = [] ∧
    (EditSession.fireIfDue
        (EditSession.runChanges ctxBar (EditSession.initSession "0") burst3).1
        1500).2
      = [{ data := "123", isLive := true }] := by
  have hchain : EditSession.chainFrom 900 burst3 := by
    simp [burst3, EditSession.chainFrom]
  have h := debounce_single_commit ctxBar "0" 900 burst3 1200 "123"
    rfl rfl (by decide) hchain (by decide) (by decide)
  exact ⟨rfl, by decide, hchain, by decide, h.1, h.2.2.2.1⟩
